import Mathlib

/-!
Verification development for the CPR grid/robot simulation.

Shallow embedding of the source modules:
* `grid.py`   — the bounded integer grid with deposit markers;
* `robot.py`  — the finder-helper robot state machine;
* `simulation.py` — the tick driver (`_execute_actions`, message delivery);
* `save.py`   — the Paxos (leader-commit) robot variant.

State, role, direction and action tags are string constants in the source
drawn from closed sets; they are embedded as inductive enumerations whose
constructor names are the source's string tags.
-/

namespace CPR

/-- Facing direction: the source's `'N' | 'S' | 'E' | 'W'` characters. -/
inductive Dir
  | N | S | E | W
deriving DecidableEq, Repr

/-- Robot FSM states of `robot.py` (the source's `self.state` strings). -/
inductive RState
  | exploring
  | finder_waiting_response
  | finder_waiting_here
  | finder_ready
  | helper_waiting_ack
  | helper_moving_opposite
  | helper_waiting_ack2
  | moving_to_gold
  | waiting_at_gold
  | ready_to_pickup
  | carrying_gold
  | at_deposit
deriving DecidableEq, Repr

/-- Protocol roles of `robot.py` (the source's `self.role` strings). -/
inductive Role
  | exploring | finder | helper
deriving DecidableEq, Repr

/-- Robot actions: the source's `"move" | "turn_left" | "turn_right" | "pickup" | "idle"`. -/
inductive Act
  | move | turn_left | turn_right | pickup | idle
deriving DecidableEq, Repr

/-- Cached teammate state, the payload of a `state_update` message
(`robot.py`, `_broadcast_my_state`). -/
structure TeammateInfo where
  state : RState
  role : Role
  position : Int × Int
deriving DecidableEq, Repr

/-- Message content: the source's duck-typed payload dictionary; each field is
present (`some`) or absent (`none`). -/
structure MsgContent where
  finder_id : Option Nat
  helper_id : Option Nat
  index : Option Nat
  gold_pos : Option (Int × Int)
  finder_pos : Option (Int × Int)
  st : Option RState
  rl : Option Role
  position : Option (Int × Int)
deriving DecidableEq, Repr

/-- The all-absent content dictionary. -/
def noContent : MsgContent := ⟨none, none, none, none, none, none, none, none⟩

/-- A message: `{type, sender_id, recipient_id | broadcast, content}`. -/
structure Msg where
  mtype : String
  sender_id : Nat
  recipient_id : Option Nat
  broadcast : Bool
  content : MsgContent
deriving DecidableEq, Repr

/-- The robot state of `robot.py` (`Robot.__init__`). -/
structure RobotSt where
  id : Nat
  group : Nat
  position : Int × Int
  direction : Dir
  grid_size : Nat
  state : RState
  holding_gold : Bool
  carrying_with : Option Nat
  target_gold_pos : Option (Int × Int)
  next_action : Option Act
  role : Role
  message_index : Nat
  finder_id : Option Nat
  helper_id : Option Nat
  current_message_index : Option Nat
  timeout_counter : Nat
  max_timeout : Nat
  wait_timer : Nat
  pickup_timer : Nat
  message_inbox : List Msg
  message_outbox : List Msg
  observed_gold : List (Int × Int)
  teammate_states : List (Nat × TeammateInfo)
deriving DecidableEq, Repr

/-- Bounds check `0 <= x < size and 0 <= y < size`
(`Robot._is_valid_pos` and the guard of `Grid.get_cell` / `Grid.update_cell`). -/
def is_valid_pos (gridSize : Nat) (p : Int × Int) : Bool :=
  decide (0 ≤ p.1 ∧ p.1 < (gridSize : Int) ∧ 0 ≤ p.2 ∧ p.2 < (gridSize : Int))

/-- The grid of `grid.py`: a `size×size` integer field.  The cell array is
embedded as a total function on integer coordinates; only in-bounds cells are
ever read or written by the embedded operations. -/
structure Grid where
  size : Nat
  num_gold : Nat
  cells : Int × Int → Int

/-- `Grid.get_cell`: bounds-checked read, `-1` outside the grid. -/
def Grid.get_cell (g : Grid) (pos : Int × Int) : Int :=
  if is_valid_pos g.size pos then g.cells pos else -1

/-- `Grid.update_cell`: bounds-checked write, silent no-op outside the grid. -/
def Grid.update_cell (g : Grid) (pos : Int × Int) (value : Int) : Grid :=
  if is_valid_pos g.size pos then
    { g with cells := fun p => if p = pos then value else g.cells p }
  else g

/-- A raw (unchecked) cell write: the simulation's direct
`self.grid.grid[pos] = v` numpy assignments. -/
def Grid.setRaw (g : Grid) (pos : Int × Int) (value : Int) : Grid :=
  { g with cells := fun p => if p = pos then value else g.cells p }

/-- Direction deltas in `(row, col)` convention
(`dir_map = {'N': (-1, 0), 'S': (1, 0), 'E': (0, 1), 'W': (0, -1)}`). -/
def dirDelta : Dir → Int × Int
  | .N => (-1, 0)
  | .S => (1, 0)
  | .E => (0, 1)
  | .W => (0, -1)

/-- `turn_left`: `dirs = ['N', 'W', 'S', 'E']`, step to the next entry. -/
def turnLeft : Dir → Dir
  | .N => .W
  | .W => .S
  | .S => .E
  | .E => .N

/-- `turn_right`: `dirs = ['N', 'E', 'S', 'W']`, step to the next entry. -/
def turnRight : Dir → Dir
  | .N => .E
  | .E => .S
  | .S => .W
  | .W => .N

/-- The destination of a forward step (`Robot.execute_action`, `"move"` case). -/
def move_target (r : RobotSt) : Int × Int :=
  ((r.position.1 + (dirDelta r.direction).1), (r.position.2 + (dirDelta r.direction).2))

/-- `Robot.execute_action`: move forward if in bounds (silent no-op otherwise),
or turn.  Any other action (including Python `None`) leaves the robot unchanged. -/
def execute_action (r : RobotSt) (action : Option Act) : RobotSt :=
  match action with
  | some Act.move =>
      let new_pos := move_target r
      if is_valid_pos r.grid_size new_pos then { r with position := new_pos } else r
  | some Act.turn_left => { r with direction := turnLeft r.direction }
  | some Act.turn_right => { r with direction := turnRight r.direction }
  | _ => r

/-- `Robot.get_deposit_pos`: `(0,0)` for group 1, `(size-1, size-1)` otherwise. -/
def get_deposit_pos (r : RobotSt) : Int × Int :=
  if r.group = 1 then (0, 0) else ((r.grid_size : Int) - 1, (r.grid_size : Int) - 1)

/-- `Robot.get_visible_positions`: 3 front cells plus 5 second-row cells in the
facing direction, filtered to in-bounds positions. -/
def get_visible_positions (r : RobotSt) : List (Int × Int) :=
  let d := dirDelta r.direction
  let perp0 : Int × Int :=
    match r.direction with
    | .N | .S => (0, 1)
    | .E | .W => (1, 0)
  let front : Int × Int := (r.position.1 + d.1, r.position.2 + d.2)
  let frontRow : List (Int × Int) :=
    [(front.1 - perp0.1, front.2 - perp0.2), front, (front.1 + perp0.1, front.2 + perp0.2)]
  let front2 : Int × Int := (front.1 + d.1, front.2 + d.2)
  let secondRow : List (Int × Int) :=
    ([-2, -1, 0, 1, 2] : List Int).map (fun i => (front2.1 + i * perp0.1, front2.2 + i * perp0.2))
  (frontRow ++ secondRow).filter (fun p => is_valid_pos r.grid_size p)

/-- `Robot.observe`: record the visible positions whose provided cell value is 1. -/
def observe (r : RobotSt) (visible_cells : Int × Int → Option Int) : RobotSt :=
  { r with observed_gold :=
      (get_visible_positions r).filter (fun p => visible_cells p = some 1) }

/-- `Robot._reset_to_exploring`: clear role, partner, target, conversation index
and every timer, and return to the exploring state. -/
def reset_to_exploring (r : RobotSt) : RobotSt :=
  { r with
    role := Role.exploring
    state := RState.exploring
    finder_id := none
    helper_id := none
    carrying_with := none
    target_gold_pos := none
    current_message_index := none
    timeout_counter := 0
    wait_timer := 0
    pickup_timer := 0 }

/-- `Robot._sense_physical_gold_state`: proprioceptive sensing of the physical
carry state.  A detected pickup sets the holding flag; a detected loss clears
holding/partner/target and resets to exploring (the deposit and drop branches
of the source perform the same state change). -/
def sense_physical_gold_state (r : RobotSt) (physical_holding_gold : Bool) : RobotSt :=
  if physical_holding_gold = true ∧ r.holding_gold = false then
    { r with holding_gold := true }
  else if physical_holding_gold = false ∧ r.holding_gold = true then
    if r.state = RState.at_deposit then
      reset_to_exploring { r with holding_gold := false, carrying_with := none, target_gold_pos := none }
    else
      reset_to_exploring { r with holding_gold := false, carrying_with := none, target_gold_pos := none }
  else r

/-- Lookup in the cached teammate-state dictionary. -/
def lookupTeammate (ts : List (Nat × TeammateInfo)) (k : Nat) : Option TeammateInfo :=
  (ts.find? (fun e => e.1 = k)).map (fun e => e.2)

/-- Dictionary assignment `self.teammate_states[k] = v`: overwrite in place, or
append a new key. -/
def setTeammate (ts : List (Nat × TeammateInfo)) (k : Nat) (v : TeammateInfo) :
    List (Nat × TeammateInfo) :=
  if (ts.find? (fun e => e.1 = k)).isSome then
    ts.map (fun e => if e.1 = k then (k, v) else e)
  else ts ++ [(k, v)]

/-- Handler for one inbox message (`Robot.process_messages`, finder-helper
protocol).  Malformed payloads (fields the source always sends being absent)
leave the robot unchanged. -/
def process_one_message (r : RobotSt) (msg : Msg) : RobotSt :=
  if msg.mtype = "state_update" then
    match msg.content.st, msg.content.rl, msg.content.position with
    | some s, some rl, some p =>
        { r with teammate_states := setTeammate r.teammate_states msg.sender_id ⟨s, rl, p⟩ }
    | _, _, _ => r
  else if msg.mtype = "found" then
    if r.role = Role.exploring ∧ r.state = RState.exploring then
      match msg.content.finder_id, msg.content.index, msg.content.gold_pos with
      | some fid, some idx, some gp =>
          { r with
            message_outbox := r.message_outbox ++
              [⟨"response", r.id, some fid, false,
                { noContent with helper_id := some r.id, finder_id := some fid, index := some idx }⟩]
            state := RState.helper_waiting_ack
            role := Role.helper
            finder_id := some fid
            target_gold_pos := some gp
            current_message_index := some idx }
      | _, _, _ => r
    else r
  else if msg.mtype = "response" then
    if r.role = Role.finder ∧ r.state = RState.finder_waiting_response then
      match msg.content.helper_id, msg.content.index with
      | some hid, some idx =>
          if some idx = r.current_message_index then
            { r with
              helper_id := some hid
              carrying_with := some hid
              message_outbox := r.message_outbox ++
                [⟨"ack", r.id, some hid, false,
                  { noContent with finder_id := some r.id, helper_id := some hid, index := some idx }⟩]
              state := RState.finder_waiting_here
              timeout_counter := 0 }
          else r
      | _, _ => r
    else r
  else if msg.mtype = "ack" then
    if r.role = Role.helper ∧ r.state = RState.helper_waiting_ack then
      match msg.content.helper_id, msg.content.index with
      | some hid, some idx =>
          if hid = r.id ∧ some idx = r.current_message_index then
            { r with
              carrying_with := r.finder_id
              state := RState.helper_moving_opposite
              timeout_counter := 0 }
          else if some idx = r.current_message_index then
            { r with
              role := Role.exploring
              state := RState.exploring
              finder_id := none
              target_gold_pos := none
              current_message_index := none }
          else r
      | _, _ => r
    else r
  else if msg.mtype = "here" then
    if r.role = Role.finder ∧ r.state = RState.finder_waiting_here then
      match msg.content.helper_id, msg.content.index with
      | some hid, some idx =>
          if some hid = r.helper_id ∧ some idx = r.current_message_index then
            { r with state := RState.finder_ready, timeout_counter := 0 }
          else r
      | _, _ => r
    else r
  else if msg.mtype = "ack2" then
    if r.role = Role.helper ∧ r.state = RState.helper_waiting_ack2 then
      match msg.content.index with
      | some idx =>
          if some idx = r.current_message_index then
            { r with state := RState.moving_to_gold, timeout_counter := 0 }
          else r
      | none => r
    else r
  else r

/-- `Robot.process_messages`: fold the handler over the inbox, then clear it. -/
def process_messages (r : RobotSt) : RobotSt :=
  let r' := r.message_inbox.foldl process_one_message r
  { r' with message_inbox := [] }

/-- Manhattan distance `abs(p[0]-q[0]) + abs(p[1]-q[1])`. -/
def manhattan (p q : Int × Int) : Nat :=
  (p.1 - q.1).natAbs + (p.2 - q.2).natAbs

/-- `Robot._get_opposite_position`: the in-bounds cell adjacent to the gold
closest to the robot (Python `min` keeps the first minimum), or the gold cell
itself if none is in bounds. -/
def get_opposite_position (r : RobotSt) (gold_pos : Int × Int) : Int × Int :=
  let candidates : List (Int × Int) :=
    [(gold_pos.1 + 1, gold_pos.2), (gold_pos.1 - 1, gold_pos.2),
     (gold_pos.1, gold_pos.2 + 1), (gold_pos.1, gold_pos.2 - 1)]
  let valid_candidates := candidates.filter (fun p => is_valid_pos r.grid_size p)
  match valid_candidates.foldl
      (fun best p =>
        match best with
        | none => some p
        | some b => if manhattan p r.position < manhattan b r.position then some p else best)
      none with
  | some p => p
  | none => gold_pos

/-- The `['N', 'E', 'S', 'W']` index used by `Robot._should_turn_left`. -/
def dirIndexNESW : Dir → Int
  | .N => 0
  | .E => 1
  | .S => 2
  | .W => 3

/-- `Robot._should_turn_left`: compare left and right turn counts modulo 4. -/
def should_turn_left (current target : Dir) : Bool :=
  let left_turns := (dirIndexNESW current - dirIndexNESW target) % 4
  let right_turns := (dirIndexNESW target - dirIndexNESW current) % 4
  left_turns ≤ right_turns

/-- `Robot._get_move_action_towards`: greedy Manhattan stepping — prefer the
axis with the larger absolute delta, turn toward the desired facing, else move. -/
def get_move_action_towards (r : RobotSt) (target : Int × Int) : Act :=
  let dx := target.1 - r.position.1
  let dy := target.2 - r.position.2
  let desired : Dir :=
    if dx.natAbs > dy.natAbs then (if dx > 0 then Dir.S else Dir.N)
    else (if dy > 0 then Dir.E else Dir.W)
  if r.direction ≠ desired then
    if should_turn_left r.direction desired then Act.turn_left else Act.turn_right
  else Act.move

/-- `Robot._send_found_message`: broadcast a `found` message carrying the
finder id, conversation index, gold position and finder position. -/
def send_found_message (r : RobotSt) : RobotSt :=
  { r with message_outbox := r.message_outbox ++
      [⟨"found", r.id, none, true,
        { noContent with
          finder_id := some r.id
          index := r.current_message_index
          gold_pos := r.target_gold_pos
          finder_pos := some r.position }⟩] }

/-- The partner check of the `waiting_at_gold` branch of `Robot.decide_action`:
the cached partner state is at our position and waiting or ready. -/
def partner_signal_ok (r : RobotSt) : Bool :=
  match r.carrying_with with
  | none => false
  | some cid =>
      match lookupTeammate r.teammate_states cid with
      | none => false
      | some info =>
          decide (info.position = r.position ∧
            (info.state = RState.waiting_at_gold ∨ info.state = RState.ready_to_pickup))

/-- The wait-timer tail of the `waiting_at_gold` branch: increment, and reset
to exploring once the timer passes 30. -/
def waiting_continue (r : RobotSt) : RobotSt × Act :=
  let r1 := { r with wait_timer := r.wait_timer + 1 }
  if r1.wait_timer > 30 then ({ reset_to_exploring r1 with wait_timer := 0 }, Act.idle)
  else (r1, Act.idle)

/-- Append an `ack2` message to the helper (`finder_ready` branch). -/
def emit_ack2 (r : RobotSt) : RobotSt :=
  { r with message_outbox := r.message_outbox ++
      [⟨"ack2", r.id, r.helper_id, false,
        { noContent with
          finder_id := some r.id
          helper_id := r.helper_id
          index := r.current_message_index }⟩] }

/-- Append a `here` message to the finder (`helper_moving_opposite` branch). -/
def emit_here (r : RobotSt) : RobotSt :=
  { r with message_outbox := r.message_outbox ++
      [⟨"here", r.id, r.finder_id, false,
        { noContent with
          helper_id := some r.id
          finder_id := r.finder_id
          index := r.current_message_index }⟩] }

/-- `Robot.decide_action`: the finder-helper state machine.  Returns the
mutated robot and the chosen action.  `randAct` stands for the random
exploration draw (`random.random() < 0.2` and `random.choice`) of the
`exploring` branch; every other branch is deterministic. -/
def decide_action (r : RobotSt) (visible_cells : Int × Int → Option Int) (randAct : Act) :
    RobotSt × Act :=
  if r.state = RState.carrying_gold ∧ r.holding_gold = true then
    let deposit := get_deposit_pos r
    if r.position = deposit then
      ({ r with state := RState.at_deposit, wait_timer := 0 }, Act.idle)
    else (r, get_move_action_towards r deposit)
  else if r.state = RState.at_deposit then
    if r.holding_gold = false then (r, Act.idle)
    else
      let r1 := { r with wait_timer := r.wait_timer + 1 }
      if r1.wait_timer > 20 then (reset_to_exploring r1, Act.idle)
      else (r1, Act.idle)
  else if r.state = RState.ready_to_pickup then
    if r.holding_gold = true then
      ({ r with state := RState.carrying_gold, pickup_timer := 0 }, Act.idle)
    else
      let r1 := { r with pickup_timer := r.pickup_timer + 1 }
      if r1.pickup_timer > 5 then (reset_to_exploring r1, Act.idle)
      else (r1, Act.pickup)
  else if r.state = RState.waiting_at_gold then
    if partner_signal_ok r then
      ({ r with state := RState.ready_to_pickup, pickup_timer := 0 }, Act.idle)
    else
      match visible_cells r.position with
      | some v => if ¬ (v > 0) then (reset_to_exploring r, Act.idle) else waiting_continue r
      | none => waiting_continue r
  else if r.state = RState.moving_to_gold ∧ r.target_gold_pos.isSome then
    match r.target_gold_pos with
    | some tgt =>
        if r.position = tgt then
          ({ r with state := RState.waiting_at_gold, wait_timer := 0 }, Act.idle)
        else
          (match visible_cells tgt with
           | some v =>
               if ¬ (v > 0) then (reset_to_exploring r, Act.idle)
               else (r, get_move_action_towards r tgt)
           | none => (r, get_move_action_towards r tgt))
    | none => (r, Act.idle)
  else if r.state = RState.finder_waiting_response then
    let r1 := { r with timeout_counter := r.timeout_counter + 1 }
    if r1.timeout_counter > r1.max_timeout then
      ({ send_found_message r1 with timeout_counter := 0 }, Act.idle)
    else (r1, Act.idle)
  else if r.state = RState.finder_waiting_here then
    let r1 := { r with timeout_counter := r.timeout_counter + 1 }
    if r1.timeout_counter > r1.max_timeout then (reset_to_exploring r1, Act.idle)
    else (r1, Act.idle)
  else if r.state = RState.finder_ready then
    if r.target_gold_pos = some r.position then
      ({ emit_ack2 r with state := RState.moving_to_gold }, Act.idle)
    else
      match r.target_gold_pos with
      | some tgt =>
          let action := get_move_action_towards r tgt
          if action = Act.move then
            ({ emit_ack2 r with state := RState.moving_to_gold }, action)
          else (r, action)
      | none => (r, Act.idle)
  else if r.state = RState.helper_waiting_ack then
    let r1 := { r with timeout_counter := r.timeout_counter + 1 }
    if r1.timeout_counter > r1.max_timeout then (reset_to_exploring r1, Act.idle)
    else (r1, Act.idle)
  else if r.state = RState.helper_moving_opposite then
    match r.target_gold_pos with
    | some gp =>
        let opposite := get_opposite_position r gp
        if r.position = opposite then
          ({ emit_here r with state := RState.helper_waiting_ack2, timeout_counter := 0 }, Act.idle)
        else (r, get_move_action_towards r opposite)
    | none => (r, Act.idle)
  else if r.state = RState.helper_waiting_ack2 then
    let r1 := { r with timeout_counter := r.timeout_counter + 1 }
    if r1.timeout_counter > r1.max_timeout then (reset_to_exploring r1, Act.idle)
    else (r1, Act.idle)
  else if r.state = RState.exploring then
    if r.observed_gold ≠ [] ∧ r.role = Role.exploring then
      match r.observed_gold with
      | g :: _ =>
          let r1 := { r with
            role := Role.finder
            target_gold_pos := some g
            message_index := r.message_index + 1 }
          let r2 := { r1 with current_message_index := some r1.message_index }
          ({ send_found_message r2 with
              state := RState.finder_waiting_response, timeout_counter := 0 }, Act.idle)
      | [] => (r, randAct)
    else (r, randAct)
  else (r, Act.idle)

/-- `Robot._broadcast_my_state`: broadcast state, role and position. -/
def broadcast_my_state (r : RobotSt) : RobotSt :=
  { r with message_outbox := r.message_outbox ++
      [⟨"state_update", r.id, none, true,
        { noContent with
          st := some r.state
          rl := some r.role
          position := some r.position }⟩] }

/-- `Robot.update`: observe, sense the physical carry state, process the inbox,
decide the next action, broadcast own state. -/
def robot_update (r : RobotSt) (visible_cells : Int × Int → Option Int)
    (physical_holding_gold : Bool) (randAct : Act) : RobotSt :=
  let r1 := observe r visible_cells
  let r2 := sense_physical_gold_state r1 physical_holding_gold
  let r3 := process_messages r2
  let p := decide_action r3 visible_cells randAct
  let r5 := { p.1 with next_action := some p.2 }
  broadcast_my_state r5

/-! Part: Simulation tick driver (`simulation.py`, `Simulation._execute_actions`) -/

/-- A physical carrier entry: the pair of robot ids (the source's frozenset)
and the position the gold was picked up at. -/
abbrev Carrier := (Nat × Nat) × (Int × Int)

/-- `next((r for r in all_robots if r.id == rid), None)`. -/
def findRobot (robots : List RobotSt) (rid : Nat) : Option RobotSt :=
  robots.find? (fun r => r.id = rid)

/-- `Simulation._is_robot_physically_carrying`: membership in any carrier pair. -/
def is_robot_physically_carrying (carriers : List Carrier) (rid : Nat) : Bool :=
  carriers.any (fun c => c.1.1 = rid ∨ c.1.2 = rid)

/-- The robots at `pos` of group `grp` whose action is `pickup` and who are not
already holding gold (the `pickup_attempts` grouping). -/
def pickup_attempters_at (robots : List RobotSt) (pos : Int × Int) (grp : Nat) :
    List RobotSt :=
  robots.filter (fun r =>
    decide (r.next_action = some Act.pickup) && (!r.holding_gold) &&
      decide (r.position = pos) && decide (r.group = grp))

/-- `bumpScore`, the dict increment `d[grp] += 1`. -/
def bumpScore (s : Nat → Nat) (grp : Nat) : Nat → Nat :=
  fun g => if g = grp then s g + 1 else s g

/-- One group's turn of the pickup-contention loop at one cell.  `gold`
is re-read from the (possibly already decremented) grid, exactly as the source
reads `self.grid.grid[pos]` inside the loop.  Returns the updated grid, pickup
counts and carriers. -/
def process_group_pickup (grid : Grid) (counts : Nat → Nat) (carriers : List Carrier)
    (pos : Int × Int) (grp : Nat) (selfList otherList : List RobotSt) :
    Grid × (Nat → Nat) × List Carrier :=
  match selfList with
  | [a, b] =>
      let gold_available := grid.cells pos
      let other_trying := otherList.length
      if other_trying = 2 ∧ gold_available ≥ 2 then
        -- "Both groups get gold": capped at 2, positive, so this group succeeds
        (grid.setRaw pos (grid.cells pos - 1), bumpScore counts grp,
          carriers ++ [((a.id, b.id), pos)])
      else if other_trying = 2 ∧ gold_available = 1 then
        -- "Conflict, both fail"
        (grid, counts, carriers)
      else if gold_available > 0 then
        (grid.setRaw pos (grid.cells pos - 1), bumpScore counts grp,
          carriers ++ [((a.id, b.id), pos)])
      else (grid, counts, carriers)
  | _ => (grid, counts, carriers)

/-- Pickup resolution at one cell.  `all_robots = group1 + group2`, so when
both groups attempt at a cell, group 1's list was inserted first and is
processed first; processing an absent group is a no-op. -/
def resolve_pickups_at (robots : List RobotSt) (pos : Int × Int)
    (grid : Grid) (counts : Nat → Nat) (carriers : List Carrier) :
    Grid × (Nat → Nat) × List Carrier :=
  let g1 := pickup_attempters_at robots pos 1
  let g2 := pickup_attempters_at robots pos 2
  let s1 := process_group_pickup grid counts carriers pos 1 g1 g2
  process_group_pickup s1.1 s1.2.1 s1.2.2 pos 2 g2 g1

/-- First-occurrence key order of a Python dict built by insertion. -/
def orderedKeys (l : List (Int × Int)) : List (Int × Int) :=
  l.foldl (fun acc p => if p ∈ acc then acc else acc ++ [p]) []

/-- The pickup phase of `_execute_actions`: resolve contention at every cell
with pickup attempts, in insertion order. -/
def pickupPhase (robots : List RobotSt) (grid : Grid) (counts : Nat → Nat)
    (carriers : List Carrier) : Grid × (Nat → Nat) × List Carrier :=
  let attempters := robots.filter (fun r =>
    decide (r.next_action = some Act.pickup) && (!r.holding_gold))
  let positions := orderedKeys (attempters.map (fun r => r.position))
  positions.foldl (fun st pos => resolve_pickups_at robots pos st.1 st.2.1 st.2.2)
    (grid, counts, carriers)

/-- The movement phase: robots whose action is neither `pickup` nor `idle`
execute it; `new_positions` records `(old_pos, new_pos)` for every robot. -/
def moveOne (r : RobotSt) : RobotSt :=
  match r.next_action with
  | some a => if a ≠ Act.pickup ∧ a ≠ Act.idle then execute_action r (some a) else r
  | none => r

/-- Movement phase result: moved robots and the `new_positions` map. -/
def movementPhase (robots : List RobotSt) :
    List RobotSt × List (Nat × ((Int × Int) × (Int × Int))) :=
  (robots.map moveOne,
   robots.map (fun r => (r.id, (r.position, (moveOne r).position))))

/-- The drop decision for one carrier pair: `some drop_pos` when the gold must
be dropped (a partner is missing, or the partners are at different positions —
then at the pre-move position of the pair's first robot), `none` otherwise. -/
def dropDecision (robots : List RobotSt)
    (new_positions : List (Nat × ((Int × Int) × (Int × Int)))) (c : Carrier) :
    Option (Int × Int) :=
  match findRobot robots c.1.1, findRobot robots c.1.2 with
  | none, none => some c.2
  | some r1, none => some r1.position
  | none, some r2 => some r2.position
  | some r1, some r2 =>
      if r1.position ≠ r2.position then
        some ((((new_positions.find? (fun e => e.1 = r1.id)).map (fun e => e.2.1)).getD
          r1.position))
      else none

/-- The carry-coherence (drop) phase: write `1` into the grid at every drop
position and remove the dropped pairs from the carrier map. -/
def dropPhase (robots : List RobotSt)
    (new_positions : List (Nat × ((Int × Int) × (Int × Int))))
    (grid : Grid) (carriers : List Carrier) : Grid × List Carrier :=
  let grid' := carriers.foldl
    (fun g c =>
      match dropDecision robots new_positions c with
      | some p => g.setRaw p 1
      | none => g) grid
  let remaining := carriers.filter (fun c => dropDecision robots new_positions c = none)
  (grid', remaining)

/-- The deposit phase: for every surviving carrier pair whose two robots are
both at the first robot's team deposit cell, increment that team's score and
remove the pair. -/
def depositGo (robots : List RobotSt) : List Carrier → (Nat → Nat) → (Nat → Nat) × List Carrier
  | [], scores => (scores, [])
  | c :: rest, scores =>
      match findRobot robots c.1.1, findRobot robots c.1.2 with
      | some r1, some r2 =>
          if r1.position = get_deposit_pos r1 ∧ r2.position = get_deposit_pos r1 then
            depositGo robots rest (bumpScore scores r1.group)
          else
            let p := depositGo robots rest scores
            (p.1, c :: p.2)
      | _, _ =>
          let p := depositGo robots rest scores
          (p.1, c :: p.2)

/-- Output of `Simulation._execute_actions`. -/
structure SimOut where
  robots : List RobotSt
  grid : Grid
  scores : Nat → Nat
  pickup_counts : Nat → Nat
  physical_gold_carriers : List Carrier

/-- `Simulation._execute_actions`: pickup contention, then movement, then the
carry-coherence drop check, then deposits. -/
def execute_actions (robots : List RobotSt) (grid : Grid)
    (scores counts : Nat → Nat) (carriers : List Carrier) : SimOut :=
  let pk := pickupPhase robots grid counts carriers
  let mv := movementPhase robots
  let dp := dropPhase mv.1 mv.2 pk.1 pk.2.2
  let de := depositGo mv.1 dp.2 scores
  ⟨mv.1, dp.1, de.1, pk.2.1, de.2⟩

/-! Part: Message bus (`simulation.py`, `_process_messages` / `_process_delayed_messages`) -/

/-- Scheduling one outgoing message: `delivery_step = current_step + delay`,
where `delay = random.randint(min, max)` is the uniformly drawn delay. -/
def schedule_message (current_step delay : Nat) (msg : Msg) : Nat × Msg :=
  (current_step + delay, msg)

/-- Whether a delivered message lands in a given robot's inbox
(`_process_delayed_messages`): broadcasts go to same-group robots other than
the sender (and to nobody when the sender is unknown); a directly addressed
message goes to the robot whose id equals `recipient_id`, with no group check. -/
def message_matches_robot (all_robots : List RobotSt) (msg : Msg) (robot : RobotSt) : Bool :=
  if msg.broadcast then
    match all_robots.find? (fun s => s.id = msg.sender_id) with
    | some sender => decide (robot.group = sender.group) && decide (robot.id ≠ msg.sender_id)
    | none => false
  else
    match msg.recipient_id with
    | some rid => robot.id = rid
    | none => false

/-- `Simulation._process_delayed_messages`: split the pending list by
`delivery_step <= current_step`, append due messages to matching inboxes. -/
def process_delayed_messages (current_step : Nat) (delayed : List (Nat × Msg))
    (all_robots : List RobotSt) : List RobotSt × List (Nat × Msg) :=
  let messages_to_deliver := (delayed.filter (fun dm => dm.1 ≤ current_step)).map (fun dm => dm.2)
  let remaining := delayed.filter (fun dm => ¬ dm.1 ≤ current_step)
  (all_robots.map (fun robot =>
     { robot with message_inbox := robot.message_inbox ++
        messages_to_deliver.filter (fun m => message_matches_robot all_robots m robot) }),
   remaining)

/-- One bus tick as ordered by `Simulation.run`: the delivery pass over the
already-pending messages runs first (`_process_delayed_messages`), and only
then are newly collected messages scheduled (`_process_messages`).  Returns
the messages delivered this tick and the pending list for the next tick. -/
def bus_tick (current_step : Nat) (delayed newly_scheduled : List (Nat × Msg)) :
    List Msg × List (Nat × Msg) :=
  let delivered := (delayed.filter (fun dm => dm.1 ≤ current_step)).map (fun dm => dm.2)
  let remaining := delayed.filter (fun dm => ¬ dm.1 ≤ current_step)
  (delivered, remaining ++ newly_scheduled)

/-! Part: The Paxos (leader-commit) variant (`save.py`) -/

/-- The Paxos-relevant state of `save.py`'s `Robot`; `α` is the type of the
proposed plan value. -/
structure SaveRobot (α : Type) where
  id : Nat
  paxos_state : String
  proposal_number : Nat
  highest_proposal_seen : Int
  accepted_proposal : Int
  accepted_value : Option α

/-- An outgoing Paxos message of `save.py`. -/
structure SaveMsg (α : Type) where
  mtype : String
  sender_id : Nat
  recipient_id : Option Nat
  proposal_id : Option Int
  value : Option α
  accepted_proposal : Option Int
  accepted_value : Option α

/-- `Robot.get_next_proposal_number`: `proposal_number += 1;
return proposal_number * 100 + id`. -/
def get_next_proposal_number (r : SaveRobot α) : SaveRobot α × Int :=
  let r1 := { r with proposal_number := r.proposal_number + 1 }
  (r1, (r1.proposal_number : Int) * 100 + (r.id : Int))

/-- The `paxos_prepare` handler of `save.py`'s `process_messages`: promise
(and raise `highest_proposal_seen`) exactly when the proposal is at least the
highest seen; otherwise do nothing. -/
def save_handle_paxos_prepare (r : SaveRobot α) (sender_id : Nat) (proposal_id : Int) :
    SaveRobot α × List (SaveMsg α) :=
  if proposal_id ≥ r.highest_proposal_seen then
    ({ r with highest_proposal_seen := proposal_id, paxos_state := "preparing" },
     [⟨"paxos_promise", r.id, some sender_id, some proposal_id, none,
       some r.accepted_proposal, r.accepted_value⟩])
  else (r, [])

/-- The `paxos_accept` handler of `save.py`'s `process_messages`: record the
accepted proposal and acknowledge exactly when the proposal is at least the
highest seen; otherwise do nothing. -/
def save_handle_paxos_accept (r : SaveRobot α) (sender_id : Nat) (proposal_id : Int)
    (value : Option α) : SaveRobot α × List (SaveMsg α) :=
  if proposal_id ≥ r.highest_proposal_seen then
    ({ r with
        accepted_proposal := proposal_id
        accepted_value := value
        paxos_state := "proposing" },
     [⟨"paxos_accepted", r.id, some sender_id, some proposal_id, none, none, none⟩])
  else (r, [])

/-! Part: Spec-side conservation quantity and concrete scenario states -/

/-- The spec's conservation quantity over the grid: the sum of the cell values
of all resource cells.  The two deposit corner cells are not resource cells
(they hold the sentinel markers 2/3), so they are excluded from the sum. -/
def Grid.resource_sum (g : Grid) : Int :=
  ((List.range g.size).map (fun i =>
    ((List.range g.size).map (fun j =>
      if ((i : Int), (j : Int)) = ((0 : Int), (0 : Int)) ∨
          ((i : Int), (j : Int)) = ((g.size : Int) - 1, (g.size : Int) - 1) then 0
      else g.cells ((i : Int), (j : Int)))).sum)).sum

/-- `sum(grid resource cells) + sum(in-transit pairs' carried units) + total
deposited` — each carrier pair carries exactly one unit. -/
def conservation_total (g : Grid) (carriers : List Carrier) (deposited : Int) : Int :=
  g.resource_sum + carriers.length + deposited

/-- A freshly constructed robot (`Robot.__init__`) on a 5×5 grid. -/
def baseRobot (rid grp : Nat) (pos : Int × Int) (d : Dir) : RobotSt where
  id := rid
  group := grp
  position := pos
  direction := d
  grid_size := 5
  state := RState.exploring
  holding_gold := false
  carrying_with := none
  target_gold_pos := none
  next_action := none
  role := Role.exploring
  message_index := 0
  finder_id := none
  helper_id := none
  current_message_index := none
  timeout_counter := 0
  max_timeout := 15
  wait_timer := 0
  pickup_timer := 0
  message_inbox := []
  message_outbox := []
  observed_gold := []
  teammate_states := []

/-- The all-zero score/count table. -/
def zeroFun : Nat → Nat := fun _ => 0

/-- A 5×5 grid with a 2-unit gold stack at `(2,2)` and the two deposit
markers at the corners, as `Grid.__init__` lays them out. -/
def gridTwo : Grid :=
  ⟨5, 0, fun p =>
    if p = ((2 : Int), (2 : Int)) then 2
    else if p = ((0 : Int), (0 : Int)) then 2
    else if p = ((4 : Int), (4 : Int)) then 3
    else 0⟩

/-- A 5×5 grid with a single gold unit at `(2,2)` and the deposit markers. -/
def gridOne : Grid :=
  ⟨5, 1, fun p =>
    if p = ((2 : Int), (2 : Int)) then 1
    else if p = ((0 : Int), (0 : Int)) then 2
    else if p = ((4 : Int), (4 : Int)) then 3
    else 0⟩

/-- Group-1 robot 1, ready to pick up at `(2,2)`. -/
def ra1 : RobotSt :=
  { baseRobot 1 1 (2, 2) Dir.N with
    state := RState.ready_to_pickup, next_action := some Act.pickup }

/-- Group-1 robot 2, ready to pick up at `(2,2)`. -/
def ra2 : RobotSt :=
  { baseRobot 2 1 (2, 2) Dir.S with
    state := RState.ready_to_pickup, next_action := some Act.pickup }

/-- Group-2 robot 3, ready to pick up at `(2,2)`. -/
def rb1 : RobotSt :=
  { baseRobot 3 2 (2, 2) Dir.N with
    state := RState.ready_to_pickup, next_action := some Act.pickup }

/-- Group-2 robot 4, ready to pick up at `(2,2)`. -/
def rb2 : RobotSt :=
  { baseRobot 4 2 (2, 2) Dir.S with
    state := RState.ready_to_pickup, next_action := some Act.pickup }

/-! Part: C9 — out-of-bounds safety -/

/-- C9: For every position outside the grid bounds, `get_cell` returns the
invalid marker `-1`, `update_cell` is a silent no-op, and a `move` whose
destination is outside the grid leaves the robot's position unchanged; all
three embedded operations are total, so none can raise. -/
theorem C9_out_of_bounds_safety (g : Grid) (pos : Int × Int) (v : Int) (r : RobotSt)
    (hpos : is_valid_pos g.size pos = false)
    (hmove : is_valid_pos r.grid_size (move_target r) = false) :
    g.get_cell pos = -1 ∧ g.update_cell pos v = g ∧
      (execute_action r (some Act.move)).position = r.position := by
  refine ⟨?_, ?_, ?_⟩
  · simp [Grid.get_cell, hpos]
  · simp [Grid.update_cell, hpos]
  · simp [execute_action, hmove]

/-- An empty 5×5 grid used by the C9 witness. -/
def gridW : Grid := ⟨5, 0, fun _ => 0⟩

/-- A robot at the top-left corner facing north (its forward cell is outside). -/
def robotW : RobotSt := baseRobot 7 1 (0, 0) Dir.N

/-- Witness for C9 at the out-of-bounds position `(-1, 0)`. -/
theorem C9_witness :
    is_valid_pos gridW.size (-1, 0) = false ∧
    is_valid_pos robotW.grid_size (move_target robotW) = false ∧
    (gridW.get_cell (-1, 0) = -1 ∧ gridW.update_cell (-1, 0) 7 = gridW ∧
      (execute_action robotW (some Act.move)).position = robotW.position) :=
  ⟨by decide, by decide,
   C9_out_of_bounds_safety gridW (-1, 0) 7 robotW (by decide) (by decide)⟩

/-! Part: C10 — directly addressed delivery ignores team membership -/

/-- C10: A delivered non-broadcast message lands in a robot's inbox exactly
when the robot's id equals the message's `recipient_id`; the condition makes no
reference to the robots' groups, so a unicast addressed to an opposing-team
robot is delivered cross-team. -/
theorem C10_unicast_ignores_team (all_robots : List RobotSt) (msg : Msg) (robot : RobotSt)
    (hb : msg.broadcast = false) :
    (message_matches_robot all_robots msg robot = true ↔ msg.recipient_id = some robot.id) := by
  unfold message_matches_robot
  rw [hb]
  cases h : msg.recipient_id with
  | none => simp
  | some rid => simp [eq_comm]

/-- Group-1 sender for the C10 witness. -/
def senderW : RobotSt := baseRobot 1 1 (0, 0) Dir.N

/-- Group-2 recipient for the C10 witness. -/
def receiverW : RobotSt := baseRobot 2 2 (4, 4) Dir.S

/-- A unicast message from the group-1 robot addressed to the group-2 robot. -/
def unicastW : Msg := ⟨"response", 1, some 2, false, noContent⟩

/-- Witness for C10: the unicast from a group-1 sender is delivered to the
group-2 robot whose id matches `recipient_id`. -/
theorem C10_witness :
    unicastW.broadcast = false ∧ senderW.group = 1 ∧ receiverW.group = 2 ∧
    (message_matches_robot [senderW, receiverW] unicastW receiverW = true ↔
      unicastW.recipient_id = some receiverW.id) ∧
    message_matches_robot [senderW, receiverW] unicastW receiverW = true :=
  ⟨rfl, rfl, rfl, C10_unicast_ignores_team [senderW, receiverW] unicastW receiverW rfl,
   by decide⟩

/-! Part: C8 — Paxos accept ordering (`save.py`) -/

/-- C8: After promising proposal `n` (which raises
`highest_proposal_seen` to `n`), a `paxos_accept` carrying any lower proposal
number `m < n` is not acted on at all: the robot's state is unchanged and no
`paxos_accepted` acknowledgment is emitted. -/
theorem C8_paxos_accept_ordering {α : Type} (r : SaveRobot α) (s s' : Nat) (n m : Int)
    (v : Option α) (hn : n ≥ r.highest_proposal_seen) (hm : m < n) :
    (save_handle_paxos_prepare r s n).1.highest_proposal_seen = n ∧
    save_handle_paxos_accept (save_handle_paxos_prepare r s n).1 s' m v =
      ((save_handle_paxos_prepare r s n).1, []) := by
  unfold save_handle_paxos_prepare save_handle_paxos_accept
  rw [if_pos hn]
  refine ⟨rfl, ?_⟩
  rw [if_neg]
  simp only [not_le]
  exact hm

/-- The initial Paxos robot state of `save.py` (`highest_proposal_seen = -1`). -/
def saveRobotW : SaveRobot Nat := ⟨1, "idle", 0, -1, -1, none⟩

/-- Witness for C8: having promised proposal 103, the robot ignores an accept
with proposal number 2. -/
theorem C8_witness :
    (103 : Int) ≥ saveRobotW.highest_proposal_seen ∧ ((2 : Int) < 103) ∧
    ((save_handle_paxos_prepare saveRobotW 1 103).1.highest_proposal_seen = 103 ∧
     save_handle_paxos_accept (save_handle_paxos_prepare saveRobotW 1 103).1 2 2 (some 5) =
       ((save_handle_paxos_prepare saveRobotW 1 103).1, [])) :=
  ⟨by decide, by decide,
   C8_paxos_accept_ordering saveRobotW 1 2 103 2 (some 5) (by decide) (by decide)⟩

/-! Part: C6 — message bus delay contract -/

/-- A zero-content broadcast used in the C6 statements. -/
def msgZeroDelay : Msg := ⟨"found", 1, none, true, noContent⟩

/-- C6 counterexample: A message collected with zero delay at tick 3 is
scheduled for tick 3, but tick 3's delivery pass has already run before the
message was collected, so nothing is delivered at tick 3; the message is
delivered by the tick-4 pass — not in the tick it was sent. -/
theorem C6_counterexample :
    schedule_message 3 0 msgZeroDelay = (3, msgZeroDelay) ∧
    (bus_tick 3 [] [schedule_message 3 0 msgZeroDelay]).1 = [] ∧
    (bus_tick 3 [] [schedule_message 3 0 msgZeroDelay]).2 = [(3, msgZeroDelay)] ∧
    (bus_tick 4 [(3, msgZeroDelay)] []).1 = [msgZeroDelay] :=
  ⟨rfl, rfl, rfl, rfl⟩

/-- C6 amended: A message collected at tick `s` with delay `d` is
scheduled for tick `s + d`; a later delivery pass at tick `t` delivers it
exactly when `s + d ≤ t` and removes it from the pending set, and the first
pass that can deliver it is tick `s + max d 1` — so a positive-delay message
is delivered exactly at its scheduled tick, while a zero-delay message is
delivered one tick after it was sent. -/
theorem C6_amended_delivery (s d t : Nat) (m : Msg) (late : List (Nat × Msg)) (ht : s < t) :
    schedule_message s d m = (s + d, m) ∧
    (bus_tick t [(s + d, m)] late).1 = (if s + d ≤ t then [m] else []) ∧
    (bus_tick t [(s + d, m)] late).2 = (if s + d ≤ t then [] else [(s + d, m)]) ++ late ∧
    ((s + d ≤ t) ↔ (s + max d 1 ≤ t)) := by
  refine ⟨rfl, ?_, ?_, ?_⟩
  · by_cases h : s + d ≤ t <;> simp [bus_tick, h]
  · by_cases h : s + d ≤ t
    · simp [bus_tick, h]
    · simp [bus_tick, h, Nat.lt_of_not_le h]
  · rcases Nat.eq_zero_or_pos d with hd | hd
    · subst hd
      simp only [Nat.max_eq_right (by omega : 0 ≤ 1)]
      omega
    · rw [Nat.max_eq_left hd]

/-- Witness for C6 (amended) at `s = 3`, `d = 0`, pass tick `t = 4`. -/
theorem C6_amended_witness :
    schedule_message 3 0 msgZeroDelay = (3 + 0, msgZeroDelay) ∧
    (bus_tick 4 [(3 + 0, msgZeroDelay)] []).1 = (if 3 + 0 ≤ 4 then [msgZeroDelay] else []) ∧
    (bus_tick 4 [(3 + 0, msgZeroDelay)] []).2 =
      (if 3 + 0 ≤ 4 then [] else [(3 + 0, msgZeroDelay)]) ++ [] ∧
    ((3 + 0 ≤ 4) ↔ (3 + max 0 1 ≤ 4)) :=
  C6_amended_delivery 3 0 4 msgZeroDelay [] (by decide)

/-! Part: C1 — pickup contention at a 2-unit cell -/

/-- C1 code evaluation at the failing input: Both teams (two robots
each) attempt pickup at `(2,2)`, which holds exactly 2 units.  Because the
group loop re-reads the grid after group 1's decrement, group 2 then sees one
unit and hits the conflict branch: group 1 succeeds, group 2 fails, and the
cell is left at 1 — the two teams do not both succeed. -/
theorem C1_code_evaluation :
    (execute_actions [ra1, ra2, rb1, rb2] gridTwo zeroFun zeroFun []).pickup_counts 1 = 1 ∧
    (execute_actions [ra1, ra2, rb1, rb2] gridTwo zeroFun zeroFun []).pickup_counts 2 = 0 ∧
    (execute_actions [ra1, ra2, rb1, rb2] gridTwo zeroFun zeroFun []).grid.cells (2, 2) = 1 ∧
    (execute_actions [ra1, ra2, rb1, rb2] gridTwo zeroFun zeroFun []).physical_gold_carriers =
      [((1, 2), (2, 2))] := by
  decide

/-! Part: C2 — resource conservation -/

/-- The pickup tick of the conservation run: robots 1 and 2 jointly pick up
one of the two units at `(2,2)`. -/
def tickPickup : SimOut := execute_actions [ra1, ra2] gridTwo zeroFun zeroFun []

/-- Robot 1 on the next tick, stepping north off the shared cell. -/
def ra1m : RobotSt := { ra1 with next_action := some Act.move }

/-- Robot 2 on the next tick, idling on the shared cell. -/
def ra2i : RobotSt := { ra2 with next_action := some Act.idle }

/-- The divergence tick: the partners separate, and the drop handler executes
`grid[drop_pos] = 1` at `(2,2)` — overwriting the unit already there. -/
def tickSplit : SimOut :=
  execute_actions [ra1m, ra2i] tickPickup.grid zeroFun zeroFun
    tickPickup.physical_gold_carriers

/-- C2 code evaluation at the failing input: Starting from 2 units at
`(2,2)` and nothing deposited, the conservation total is 2, and it is still 2
after the joint pickup; but after the carriers separate, the drop handler sets
the pre-move cell to 1 instead of incrementing it, and the total falls to 1 —
one unit has been destroyed, so the conservation invariant fails. -/
theorem C2_conservation_violation :
    conservation_total gridTwo [] 0 = 2 ∧
    conservation_total tickPickup.grid tickPickup.physical_gold_carriers 0 = 2 ∧
    tickSplit.scores 1 = 0 ∧ tickSplit.scores 2 = 0 ∧
    conservation_total tickSplit.grid tickSplit.physical_gold_carriers 0 = 1 := by
  decide

/-! Part: C5 — pickup success effects (counterexample tick) -/

/-- The pickup tick for C5: robots 1 and 2, both in `ready_to_pickup` with no
partner marked, jointly pick up the single unit at `(2,2)`. -/
def tickC5 : SimOut := execute_actions [ra1, ra2] gridOne zeroFun zeroFun []

/-- C5 counterexample: In the very tick in which the pickup succeeds
(the cell is decremented and the pair is recorded as physical carriers), the
two agents are *not* marked: their `holding_gold` is still `false`, their
state is still `ready_to_pickup` (not `CARRYING`), and no partner link is
written — all of that happens only on the next tick via sensing.  This
refutes the claim that the agents are marked in the pickup tick itself. -/
theorem C5_counterexample :
    tickC5.grid.cells (2, 2) = 0 ∧
    tickC5.physical_gold_carriers = [((1, 2), (2, 2))] ∧
    tickC5.pickup_counts 1 = 1 ∧
    tickC5.robots.map (fun r => r.holding_gold) = [false, false] ∧
    tickC5.robots.map (fun r => r.state) = [RState.ready_to_pickup, RState.ready_to_pickup] ∧
    tickC5.robots.map (fun r => r.carrying_with) = [none, none] := by
  decide

/-! Part: C4 — deposit requires co-presence -/

/-- Whether a carrier pair scores for team `g` in the deposit phase: both
robots found, both at the first robot's team deposit cell, and that robot's
group is `g`. -/
def deposit_hit (robots : List RobotSt) (g : Nat) (c : Carrier) : Bool :=
  match findRobot robots c.1.1, findRobot robots c.1.2 with
  | some r1, some r2 =>
      decide (r1.position = get_deposit_pos r1 ∧ r2.position = get_deposit_pos r1 ∧
        r1.group = g)
  | _, _ => false

/-- The deposit phase adds to team `g`'s score exactly the number of carrier
pairs co-present at `g`'s deposit cell. -/
lemma depositGo_scores (robots : List RobotSt) (carriers : List Carrier)
    (scores : Nat → Nat) (g : Nat) :
    (depositGo robots carriers scores).1 g =
      scores g + carriers.countP (deposit_hit robots g) := by
  induction carriers generalizing scores with
  | nil => simp [depositGo]
  | cons c rest ih =>
      cases h1 : findRobot robots c.1.1 with
      | none => simp [depositGo, deposit_hit, h1, List.countP_cons, ih]
      | some r1 =>
          cases h2 : findRobot robots c.1.2 with
          | none => simp [depositGo, deposit_hit, h1, h2, List.countP_cons, ih]
          | some r2 =>
              by_cases hd : r1.position = get_deposit_pos r1 ∧ r2.position = get_deposit_pos r1
              · by_cases hg : r1.group = g
                · simp [depositGo, deposit_hit, h1, h2, List.countP_cons, ih, hd.1, hd.2,
                    hg, bumpScore]
                  omega
                · simp [depositGo, deposit_hit, h1, h2, List.countP_cons, ih, hd.1, hd.2,
                    hg, Ne.symm hg, bumpScore]
              · have hhit : deposit_hit robots g c = false := by
                  simp only [deposit_hit, h1, h2, decide_eq_false_iff_not]
                  intro hx
                  exact hd ⟨hx.1, hx.2.1⟩
                simp [depositGo, h1, h2, hd, List.countP_cons, hhit, ih]

/-- C4: If a tick of `_execute_actions` changes team `g`'s score at all,
then some carrier pair that survived the drop check has both of its robots
located (after movement) at the first robot's team deposit cell, and that
robot's team is `g`: a score increment happens only with a carrying pair
co-present at its own team's deposit cell. -/
theorem C4_deposit_requires_copresence (robots : List RobotSt) (grid : Grid)
    (scores counts : Nat → Nat) (carriers : List Carrier) (g : Nat)
    (h : (execute_actions robots grid scores counts carriers).scores g ≠ scores g) :
    ∃ c, c ∈ (dropPhase (movementPhase robots).1 (movementPhase robots).2
        (pickupPhase robots grid counts carriers).1
        (pickupPhase robots grid counts carriers).2.2).2 ∧
      ∃ r1 r2,
        findRobot (movementPhase robots).1 c.1.1 = some r1 ∧
        findRobot (movementPhase robots).1 c.1.2 = some r2 ∧
        r1.group = g ∧
        r1.position = get_deposit_pos r1 ∧ r2.position = get_deposit_pos r1 := by
  have heq : (execute_actions robots grid scores counts carriers).scores g =
      scores g + ((dropPhase (movementPhase robots).1 (movementPhase robots).2
        (pickupPhase robots grid counts carriers).1
        (pickupPhase robots grid counts carriers).2.2).2).countP
          (deposit_hit (movementPhase robots).1 g) :=
    depositGo_scores (movementPhase robots).1 _ scores g
  have hpos : 0 < ((dropPhase (movementPhase robots).1 (movementPhase robots).2
      (pickupPhase robots grid counts carriers).1
      (pickupPhase robots grid counts carriers).2.2).2).countP
        (deposit_hit (movementPhase robots).1 g) := by
    rw [heq] at h
    omega
  obtain ⟨c, hc, hhit⟩ := List.countP_pos_iff.mp hpos
  refine ⟨c, hc, ?_⟩
  cases h1 : findRobot (movementPhase robots).1 c.1.1 with
  | none => simp [deposit_hit, h1] at hhit
  | some r1 =>
      cases h2 : findRobot (movementPhase robots).1 c.1.2 with
      | none => simp [deposit_hit, h1, h2] at hhit
      | some r2 =>
          simp only [deposit_hit, h1, h2, decide_eq_true_eq] at hhit
          exact ⟨r1, r2, rfl, rfl, hhit.2.2, hhit.1, hhit.2.1⟩

/-- A carrying pair co-present at the group-1 deposit `(0,0)`, for the C4
witness. -/
def rdep1 : RobotSt :=
  { baseRobot 1 1 (0, 0) Dir.N with
    state := RState.carrying_gold, holding_gold := true, carrying_with := some 2,
    next_action := some Act.idle }

/-- The partner of `rdep1`, also at the deposit. -/
def rdep2 : RobotSt :=
  { baseRobot 2 1 (0, 0) Dir.S with
    state := RState.carrying_gold, holding_gold := true, carrying_with := some 1,
    next_action := some Act.idle }

/-- Witness for C4: with the pair at the deposit, the score changes, and the
theorem produces the co-present carrying pair. -/
theorem C4_witness :
    (execute_actions [rdep1, rdep2] gridW zeroFun zeroFun [((1, 2), (2, 2))]).scores 1 ≠
      zeroFun 1 ∧
    (∃ c, c ∈ (dropPhase (movementPhase [rdep1, rdep2]).1 (movementPhase [rdep1, rdep2]).2
        (pickupPhase [rdep1, rdep2] gridW zeroFun [((1, 2), (2, 2))]).1
        (pickupPhase [rdep1, rdep2] gridW zeroFun [((1, 2), (2, 2))]).2.2).2 ∧
      ∃ r1 r2,
        findRobot (movementPhase [rdep1, rdep2]).1 c.1.1 = some r1 ∧
        findRobot (movementPhase [rdep1, rdep2]).1 c.1.2 = some r2 ∧
        r1.group = 1 ∧
        r1.position = get_deposit_pos r1 ∧ r2.position = get_deposit_pos r1) :=
  ⟨by decide,
   C4_deposit_requires_copresence [rdep1, rdep2] gridW zeroFun zeroFun
     [((1, 2), (2, 2))] 1 (by decide)⟩

/-! Part: C3 — carry-pair divergence -/

/-- C3: For a carrying pair whose partners are at different positions after
movement, the drop check places the resource back at the pre-move cell of the
pair's first robot (their last shared cell), removes the pair from the
physical carrier map (so the episode cannot score in the deposit phase), and
each partner's next proprioceptive sensing clears holding/partner/target and
reverts it to exploring. -/
theorem C3_carry_divergence (robots : List RobotSt)
    (nps : List (Nat × ((Int × Int) × (Int × Int))))
    (grid : Grid) (scores : Nat → Nat)
    (ida idb : Nat) (pk p : Int × Int) (a b : RobotSt)
    (ha : findRobot robots ida = some a) (hb : findRobot robots idb = some b)
    (hdiff : a.position ≠ b.position)
    (hpre : (nps.find? (fun e => e.1 = a.id)).map (fun e => e.2.1) = some p)
    (hahold : a.holding_gold = true) (hbhold : b.holding_gold = true) :
    (dropPhase robots nps grid [((ida, idb), pk)]).1.cells p = 1 ∧
    (dropPhase robots nps grid [((ida, idb), pk)]).2 = [] ∧
    (depositGo robots (dropPhase robots nps grid [((ida, idb), pk)]).2 scores).1 = scores ∧
    (sense_physical_gold_state a false).state = RState.exploring ∧
    (sense_physical_gold_state a false).holding_gold = false ∧
    (sense_physical_gold_state a false).carrying_with = none ∧
    (sense_physical_gold_state a false).target_gold_pos = none ∧
    (sense_physical_gold_state b false).state = RState.exploring ∧
    (sense_physical_gold_state b false).holding_gold = false ∧
    (sense_physical_gold_state b false).carrying_with = none ∧
    (sense_physical_gold_state b false).target_gold_pos = none := by
  have hdec : dropDecision robots nps ((ida, idb), pk) = some p := by
    simp [dropDecision, ha, hb, hdiff, hpre]
  refine ⟨?_, ?_, ?_, ?_, ?_, ?_, ?_, ?_, ?_, ?_, ?_⟩
  · show ((List.foldl _ grid [((ida, idb), pk)]).cells p = 1)
    simp [dropPhase, hdec, Grid.setRaw]
  · simp [dropPhase, hdec]
  · simp [dropPhase, hdec, depositGo]
  all_goals
    simp [sense_physical_gold_state, reset_to_exploring, hahold, hbhold, ite_self]

/-- The diverged first partner for the C3 witness (stepped to `(1,2)`). -/
def rdiv1 : RobotSt :=
  { baseRobot 1 1 (1, 2) Dir.N with
    state := RState.carrying_gold, holding_gold := true, carrying_with := some 2 }

/-- The second partner for the C3 witness (still at `(2,2)`). -/
def rdiv2 : RobotSt :=
  { baseRobot 2 1 (2, 2) Dir.S with
    state := RState.carrying_gold, holding_gold := true, carrying_with := some 1 }

/-- Witness for C3: the pair separated after robot 1 moved from `(2,2)` to
`(1,2)`; the resource reappears at the shared pre-move cell `(2,2)`. -/
theorem C3_witness :
    (dropPhase [rdiv1, rdiv2] [(1, ((2, 2), (1, 2))), (2, ((2, 2), (2, 2)))]
        gridW [((1, 2), (2, 2))]).1.cells (2, 2) = 1 ∧
    (dropPhase [rdiv1, rdiv2] [(1, ((2, 2), (1, 2))), (2, ((2, 2), (2, 2)))]
        gridW [((1, 2), (2, 2))]).2 = [] ∧
    (depositGo [rdiv1, rdiv2]
        (dropPhase [rdiv1, rdiv2] [(1, ((2, 2), (1, 2))), (2, ((2, 2), (2, 2)))]
          gridW [((1, 2), (2, 2))]).2 zeroFun).1 = zeroFun ∧
    (sense_physical_gold_state rdiv1 false).state = RState.exploring ∧
    (sense_physical_gold_state rdiv1 false).holding_gold = false ∧
    (sense_physical_gold_state rdiv1 false).carrying_with = none ∧
    (sense_physical_gold_state rdiv1 false).target_gold_pos = none ∧
    (sense_physical_gold_state rdiv2 false).state = RState.exploring ∧
    (sense_physical_gold_state rdiv2 false).holding_gold = false ∧
    (sense_physical_gold_state rdiv2 false).carrying_with = none ∧
    (sense_physical_gold_state rdiv2 false).target_gold_pos = none :=
  C3_carry_divergence [rdiv1, rdiv2] [(1, ((2, 2), (1, 2))), (2, ((2, 2), (2, 2)))]
    gridW zeroFun 1 2 (2, 2) (2, 2) rdiv1 rdiv2
    (by decide) (by decide) (by decide) (by decide) (by decide) (by decide)

/-! Part: C5 (amended) — pickup effects across the pickup tick and the next tick -/

/-- C5 amended: When two same-team partners in `ready_to_pickup` at the
same cell (holding nothing, mutually partnered by the pairing protocol) both
issue `pickup` at a cell holding one unit, the pickup tick decrements the
cell and records the pair as physical carriers — leaving the robots
themselves untouched — and on the following tick each partner's update senses
the physical carry, sets `holding_gold := true`, and moves from
`ready_to_pickup` to `carrying_gold`, with the mutual partner links still in
place. -/
theorem C5_amended_pickup_effects (a b : RobotSt) (grid : Grid)
    (scores counts : Nat → Nat) (p : Int × Int) (vis : Int × Int → Option Int) (ra rb : Act)
    (hid : a.id ≠ b.id)
    (hag : a.group = 1) (hbg : b.group = 1)
    (hap : a.position = p) (hbp : b.position = p)
    (hp0 : p ≠ (0, 0))
    (has : a.state = RState.ready_to_pickup) (hbs : b.state = RState.ready_to_pickup)
    (hah : a.holding_gold = false) (hbh : b.holding_gold = false)
    (haa : a.next_action = some Act.pickup) (hba : b.next_action = some Act.pickup)
    (hmut1 : a.carrying_with = some b.id) (hmut2 : b.carrying_with = some a.id)
    (hai : a.message_inbox = []) (hbi : b.message_inbox = [])
    (hg : grid.cells p = 1) :
    (execute_actions [a, b] grid scores counts []).grid.cells p = 0 ∧
    (execute_actions [a, b] grid scores counts []).physical_gold_carriers =
      [((a.id, b.id), p)] ∧
    (execute_actions [a, b] grid scores counts []).robots = [a, b] ∧
    is_robot_physically_carrying
      (execute_actions [a, b] grid scores counts []).physical_gold_carriers a.id = true ∧
    is_robot_physically_carrying
      (execute_actions [a, b] grid scores counts []).physical_gold_carriers b.id = true ∧
    (robot_update a vis true ra).holding_gold = true ∧
    (robot_update a vis true ra).state = RState.carrying_gold ∧
    (robot_update a vis true ra).carrying_with = some b.id ∧
    (robot_update b vis true rb).holding_gold = true ∧
    (robot_update b vis true rb).state = RState.carrying_gold ∧
    (robot_update b vis true rb).carrying_with = some a.id := by
  have hexec : execute_actions [a, b] grid scores counts [] =
      ⟨[a, b], grid.setRaw p (grid.cells p - 1), scores, bumpScore counts 1,
        [((a.id, b.id), p)]⟩ := by
    have hp0' : p ≠ (0 : Int × Int) := by simpa using hp0
    have hfa : findRobot [a, b] a.id = some a := by simp [findRobot]
    have hfb : findRobot [a, b] b.id = some b := by simp [findRobot, hid]
    unfold execute_actions pickupPhase resolve_pickups_at process_group_pickup
      pickup_attempters_at orderedKeys movementPhase moveOne dropPhase dropDecision
    simp [haa, hba, hah, hbh, hag, hbg, hap, hbp, hg, hid, hp0', Ne.symm hid, depositGo,
      get_deposit_pos, hfa, hfb]
  have hupd_a : (robot_update a vis true ra).holding_gold = true ∧
      (robot_update a vis true ra).state = RState.carrying_gold ∧
      (robot_update a vis true ra).carrying_with = some b.id := by
    unfold robot_update observe sense_physical_gold_state process_messages decide_action
      broadcast_my_state
    simp [has, hah, hai, hmut1]
  have hupd_b : (robot_update b vis true rb).holding_gold = true ∧
      (robot_update b vis true rb).state = RState.carrying_gold ∧
      (robot_update b vis true rb).carrying_with = some a.id := by
    unfold robot_update observe sense_physical_gold_state process_messages decide_action
      broadcast_my_state
    simp [hbs, hbh, hbi, hmut2]
  refine ⟨?_, ?_, ?_, ?_, ?_, hupd_a.1, hupd_a.2.1, hupd_a.2.2,
    hupd_b.1, hupd_b.2.1, hupd_b.2.2⟩
  · rw [hexec]
    simp [Grid.setRaw, hg]
  · rw [hexec]
  · rw [hexec]
  · rw [hexec]
    simp [is_robot_physically_carrying]
  · rw [hexec]
    simp [is_robot_physically_carrying]

/-- Robot 1 with its protocol partner link set, for the C5 witness. -/
def ra1p : RobotSt := { ra1 with carrying_with := some 2 }

/-- Robot 2 with its protocol partner link set, for the C5 witness. -/
def ra2p : RobotSt := { ra2 with carrying_with := some 1 }

/-- Witness for C5 (amended) on the one-gold grid at `(2,2)`. -/
theorem C5_amended_witness :
    (execute_actions [ra1p, ra2p] gridOne zeroFun zeroFun []).grid.cells (2, 2) = 0 ∧
    (execute_actions [ra1p, ra2p] gridOne zeroFun zeroFun []).physical_gold_carriers =
      [((ra1p.id, ra2p.id), (2, 2))] ∧
    (execute_actions [ra1p, ra2p] gridOne zeroFun zeroFun []).robots = [ra1p, ra2p] ∧
    is_robot_physically_carrying
      (execute_actions [ra1p, ra2p] gridOne zeroFun zeroFun []).physical_gold_carriers
      ra1p.id = true ∧
    is_robot_physically_carrying
      (execute_actions [ra1p, ra2p] gridOne zeroFun zeroFun []).physical_gold_carriers
      ra2p.id = true ∧
    (robot_update ra1p (fun _ => none) true Act.idle).holding_gold = true ∧
    (robot_update ra1p (fun _ => none) true Act.idle).state = RState.carrying_gold ∧
    (robot_update ra1p (fun _ => none) true Act.idle).carrying_with = some ra2p.id ∧
    (robot_update ra2p (fun _ => none) true Act.idle).holding_gold = true ∧
    (robot_update ra2p (fun _ => none) true Act.idle).state = RState.carrying_gold ∧
    (robot_update ra2p (fun _ => none) true Act.idle).carrying_with = some ra1p.id :=
  C5_amended_pickup_effects ra1p ra2p gridOne zeroFun zeroFun (2, 2) (fun _ => none)
    Act.idle Act.idle (by decide) (by decide) (by decide) (by decide) (by decide)
    (by decide) (by decide) (by decide) (by decide) (by decide) (by decide) (by decide)
    (by decide) (by decide) (by decide) (by decide) (by decide)

/-! Part: C7 — timeout termination of `waiting_at_gold` -/

/-- One tick of a robot's own update while no gold is being carried:
`Robot.update` with `physical_holding_gold = False`. -/
def wait_tick (vis : Int × Int → Option Int) (ra : Act) (r : RobotSt) : RobotSt :=
  robot_update r vis false ra

/-- `partner_signal_ok` depends only on the partner link, the cached teammate
states and the position. -/
lemma partner_signal_ok_congr (r s : RobotSt)
    (h1 : r.carrying_with = s.carrying_with)
    (h2 : r.teammate_states = s.teammate_states)
    (h3 : r.position = s.position) :
    partner_signal_ok r = partner_signal_ok s := by
  unfold partner_signal_ok
  rw [h1, h2, h3]

/-- Observation, sensing (with nothing carried) and an empty inbox only
refresh `observed_gold` and clear the inbox. -/
lemma pre_decide_eq (r : RobotSt) (vis : Int × Int → Option Int)
    (hhold : r.holding_gold = false) (hinbox : r.message_inbox = []) :
    process_messages (sense_physical_gold_state (observe r vis) false) =
      { r with
        observed_gold := (get_visible_positions r).filter (fun p => vis p = some 1)
        message_inbox := [] } := by
  unfold observe sense_physical_gold_state process_messages
  simp [hhold, hinbox]

/-- One stuck tick in `waiting_at_gold`: with no qualifying partner signal and
the gold still present, the robot stays waiting and its wait timer grows by
one, everything else (holding, inbox, partner link, teammate cache, position)
unchanged. -/
lemma wait_tick_fields (vis : Int × Int → Option Int) (ra : Act) (v : Int) (r : RobotSt)
    (hstate : r.state = RState.waiting_at_gold)
    (hhold : r.holding_gold = false)
    (hinbox : r.message_inbox = [])
    (hpartner : partner_signal_ok r = false)
    (hgold : vis r.position = some v) (hv : 0 < v)
    (hlow : r.wait_timer ≤ 29) :
    (wait_tick vis ra r).state = RState.waiting_at_gold ∧
    (wait_tick vis ra r).wait_timer = r.wait_timer + 1 ∧
    (wait_tick vis ra r).holding_gold = false ∧
    (wait_tick vis ra r).message_inbox = [] ∧
    (wait_tick vis ra r).carrying_with = r.carrying_with ∧
    (wait_tick vis ra r).teammate_states = r.teammate_states ∧
    (wait_tick vis ra r).position = r.position := by
  have hpsk_any : ∀ (st : RState) (hg : Bool) (og : List (Int × Int)) (wt : Nat),
      partner_signal_ok
        { r with
          state := st
          holding_gold := hg
          observed_gold := og
          wait_timer := wt
          message_inbox := [] } = false :=
    fun st hg og wt => (partner_signal_ok_congr _ r rfl rfl rfl).trans hpartner
  have hng : ¬ (r.wait_timer + 1 > 30) := by omega
  simp only [wait_tick, robot_update]
  rw [pre_decide_eq r vis hhold hinbox]
  unfold decide_action waiting_continue broadcast_my_state
  simp [hstate, hpsk_any, hgold, hv, hng, hhold]

/-- The timing-out tick: with the wait timer at 30, the next stuck tick resets
the robot to exploring with partner, target and all protocol-transient fields
cleared. -/
lemma wait_tick_reset (vis : Int × Int → Option Int) (ra : Act) (v : Int) (r : RobotSt)
    (hstate : r.state = RState.waiting_at_gold)
    (hhold : r.holding_gold = false)
    (hinbox : r.message_inbox = [])
    (hpartner : partner_signal_ok r = false)
    (hgold : vis r.position = some v) (hv : 0 < v)
    (htimer : r.wait_timer = 30) :
    (wait_tick vis ra r).state = RState.exploring ∧
    (wait_tick vis ra r).role = Role.exploring ∧
    (wait_tick vis ra r).carrying_with = none ∧
    (wait_tick vis ra r).target_gold_pos = none ∧
    (wait_tick vis ra r).finder_id = none ∧
    (wait_tick vis ra r).helper_id = none ∧
    (wait_tick vis ra r).current_message_index = none ∧
    (wait_tick vis ra r).timeout_counter = 0 ∧
    (wait_tick vis ra r).wait_timer = 0 ∧
    (wait_tick vis ra r).pickup_timer = 0 ∧
    (wait_tick vis ra r).holding_gold = false := by
  have hpsk_any : ∀ (st : RState) (hg : Bool) (og : List (Int × Int)) (wt : Nat),
      partner_signal_ok
        { r with
          state := st
          holding_gold := hg
          observed_gold := og
          wait_timer := wt
          message_inbox := [] } = false :=
    fun st hg og wt => (partner_signal_ok_congr _ r rfl rfl rfl).trans hpartner
  simp only [wait_tick, robot_update]
  rw [pre_decide_eq r vis hhold hinbox]
  unfold decide_action waiting_continue broadcast_my_state reset_to_exploring
  simp [hstate, hpsk_any, hgold, hv, htimer, hhold]

/-- Iterating the stuck tick keeps the robot waiting for the first 30 ticks,
with the wait timer counting the elapsed ticks. -/
lemma wait_iter_inv (vis : Int × Int → Option Int) (ra : Act) (v : Int) (r : RobotSt)
    (hstate : r.state = RState.waiting_at_gold)
    (htimer0 : r.wait_timer = 0)
    (hhold : r.holding_gold = false)
    (hinbox : r.message_inbox = [])
    (hpartner : partner_signal_ok r = false)
    (hgold : vis r.position = some v) (hv : 0 < v) :
    ∀ k, k ≤ 30 →
      ((wait_tick vis ra)^[k] r).state = RState.waiting_at_gold ∧
      ((wait_tick vis ra)^[k] r).wait_timer = k ∧
      ((wait_tick vis ra)^[k] r).holding_gold = false ∧
      ((wait_tick vis ra)^[k] r).message_inbox = [] ∧
      ((wait_tick vis ra)^[k] r).carrying_with = r.carrying_with ∧
      ((wait_tick vis ra)^[k] r).teammate_states = r.teammate_states ∧
      ((wait_tick vis ra)^[k] r).position = r.position := by
  intro k
  induction k with
  | zero =>
      intro _
      simpa using ⟨hstate, htimer0, hhold, hinbox⟩
  | succ k ih =>
      intro hk
      have ihh := ih (by omega)
      have hpsk' : partner_signal_ok ((wait_tick vis ra)^[k] r) = false :=
        (partner_signal_ok_congr _ r ihh.2.2.2.2.1 ihh.2.2.2.2.2.1
          ihh.2.2.2.2.2.2).trans hpartner
      have hgold' : vis (((wait_tick vis ra)^[k] r)).position = some v := by
        rw [ihh.2.2.2.2.2.2]; exact hgold
      have hlow : ((wait_tick vis ra)^[k] r).wait_timer ≤ 29 := by
        rw [ihh.2.1]; omega
      have step := wait_tick_fields vis ra v ((wait_tick vis ra)^[k] r)
        ihh.1 ihh.2.2.1 ihh.2.2.2.1 hpsk' hgold' hv hlow
      rw [Function.iterate_succ_apply']
      refine ⟨step.1, ?_, step.2.2.1, step.2.2.2.1, ?_, ?_, ?_⟩
      · rw [step.2.1, ihh.2.1]
      · rw [step.2.2.2.2.1, ihh.2.2.2.2.1]
      · rw [step.2.2.2.2.2.1, ihh.2.2.2.2.2.1]
      · rw [step.2.2.2.2.2.2, ihh.2.2.2.2.2.2]

/-- C7: An agent in `waiting_at_gold` with a fresh wait timer that receives
no qualifying partner information (and still sees the gold under itself)
reaches `EXPLORING` within timeout+1 = 31 ticks, and the timeout reset clears
the partner id, the target position, the conversation index, the role and
every timer. -/
theorem C7_timeout_termination (vis : Int × Int → Option Int) (ra : Act) (v : Int)
    (r : RobotSt)
    (hstate : r.state = RState.waiting_at_gold)
    (htimer0 : r.wait_timer = 0)
    (hhold : r.holding_gold = false)
    (hinbox : r.message_inbox = [])
    (hpartner : partner_signal_ok r = false)
    (hgold : vis r.position = some v) (hv : 0 < v) :
    ((wait_tick vis ra)^[31] r).state = RState.exploring ∧
    ((wait_tick vis ra)^[31] r).role = Role.exploring ∧
    ((wait_tick vis ra)^[31] r).carrying_with = none ∧
    ((wait_tick vis ra)^[31] r).target_gold_pos = none ∧
    ((wait_tick vis ra)^[31] r).finder_id = none ∧
    ((wait_tick vis ra)^[31] r).helper_id = none ∧
    ((wait_tick vis ra)^[31] r).current_message_index = none ∧
    ((wait_tick vis ra)^[31] r).timeout_counter = 0 ∧
    ((wait_tick vis ra)^[31] r).wait_timer = 0 ∧
    ((wait_tick vis ra)^[31] r).pickup_timer = 0 ∧
    ((wait_tick vis ra)^[31] r).holding_gold = false := by
  have inv := wait_iter_inv vis ra v r hstate htimer0 hhold hinbox hpartner hgold hv 30
    (by omega)
  have hpsk' : partner_signal_ok ((wait_tick vis ra)^[30] r) = false :=
    (partner_signal_ok_congr _ r inv.2.2.2.2.1 inv.2.2.2.2.2.1
      inv.2.2.2.2.2.2).trans hpartner
  have hgold' : vis (((wait_tick vis ra)^[30] r)).position = some v := by
    rw [inv.2.2.2.2.2.2]; exact hgold
  rw [show (31 : Nat) = 30 + 1 from rfl, Function.iterate_succ_apply']
  exact wait_tick_reset vis ra v ((wait_tick vis ra)^[30] r)
    inv.1 inv.2.2.1 inv.2.2.2.1 hpsk' hgold' hv inv.2.1

/-- A robot stuck waiting at the gold cell `(2,2)` with a partner link but no
cached partner information. -/
def waitingRobot : RobotSt :=
  { baseRobot 1 1 (2, 2) Dir.N with
    state := RState.waiting_at_gold
    carrying_with := some 2
    target_gold_pos := some (2, 2) }

/-- The visibility map of the C7 witness: one gold unit under the robot. -/
def visW : Int × Int → Option Int :=
  fun q => if q = ((2 : Int), (2 : Int)) then some 1 else none

/-- Witness for C7: after 31 stuck ticks, the waiting robot is exploring with
every protocol field cleared. -/
theorem C7_witness :
    ((wait_tick visW Act.move)^[31] waitingRobot).state = RState.exploring ∧
    ((wait_tick visW Act.move)^[31] waitingRobot).role = Role.exploring ∧
    ((wait_tick visW Act.move)^[31] waitingRobot).carrying_with = none ∧
    ((wait_tick visW Act.move)^[31] waitingRobot).target_gold_pos = none ∧
    ((wait_tick visW Act.move)^[31] waitingRobot).finder_id = none ∧
    ((wait_tick visW Act.move)^[31] waitingRobot).helper_id = none ∧
    ((wait_tick visW Act.move)^[31] waitingRobot).current_message_index = none ∧
    ((wait_tick visW Act.move)^[31] waitingRobot).timeout_counter = 0 ∧
    ((wait_tick visW Act.move)^[31] waitingRobot).wait_timer = 0 ∧
    ((wait_tick visW Act.move)^[31] waitingRobot).pickup_timer = 0 ∧
    ((wait_tick visW Act.move)^[31] waitingRobot).holding_gold = false :=
  C7_timeout_termination visW Act.move 1 waitingRobot rfl rfl rfl rfl
    (by decide) (by decide) (by decide)

end CPR
